import Mathlib

/-!
Shallow embedding of the notion-bookshelf migration scripts
(`bookshelf-migration.py` and `old_bookshelf-migration.py`) and proofs
about the property-transformation and migration pipeline.

Conventions of the embedding:
* Python `None` becomes `Option.none`; a value that may be `None` lives in
  `Option`.
* Pandas / float not-a-number values are represented by the explicit
  `PyNum.nan` constructor, so numeric cells form the three-way domain
  null / NaN / actual number, exactly the cases `create_number_property`
  distinguishes.
* Code that can raise a Python exception (`KeyError`, `UnboundLocalError`,
  `IndexError`) returns `Except String _`, the error string naming the
  exception.
* The external HTTP services (Notion query/create/update endpoints, the
  Google Books ISBN search, the OpenLibrary cover lookup) are passed in as
  oracle functions, and the embedded functions additionally record the
  requests they issue so that frame/effect claims can be stated.
-/

namespace Bookshelf

/-- Numeric cell of the in-memory dataframe: Python `None`, a float NaN,
or an actual number. -/
inductive PyNum
  | null
  | nan
  | num (v : Int)
deriving DecidableEq, Repr

/-- An entry of a Notion multi-select payload list.  The script passes the
author strings raw (`[a for a in entry["Authors"]]`) but wraps genres as
name-objects (`[{"name": g} ...]`); the two shapes are kept apart. -/
inductive MsEntry
  | raw (s : String)
  | named (s : String)
deriving DecidableEq, Repr

/-- Destination-schema property object (the wire format built by the
`create_*_property` helpers of `PayloadDeployer`). -/
inductive DestProp
  | file (url : String)
  | titleProp (content : String)
  | select (nm : String)
  | multiSelect (vals : List MsEntry)
  | dateProp (start stop : Option String)
  | number (v : Int)
  | checkbox (b : Bool)
deriving DecidableEq, Repr

/-- A Notion filter object: either a single leaf predicate (identified
abstractly by a number) or an and-node combining two filter objects, as
produced by `FilterCreator.dict_list_to_object`. -/
inductive FilterObj
  | leaf (p : Nat)
  | and (f1 f2 : FilterObj)
deriving DecidableEq, Repr

/-- Depth of a filter object: a leaf has depth 0, an and-node one more
than its deeper child. -/
def FilterObj.depth : FilterObj → Nat
  | FilterObj.leaf _ => 0
  | FilterObj.and f1 f2 => max f1.depth f2.depth + 1

/-- `FilterCreator.dict_list_to_object`: combine a list of leaf predicates
into one filter object by recursive midpoint splitting.  Python indexes
`filters[0]` for a list of length ≤ 1, which raises `IndexError` on an
empty list; the embedding returns `none` there. -/
def dict_list_to_object (fs : List Nat) : Option FilterObj :=
  if _h : 1 < fs.length then
    match dict_list_to_object (fs.take (fs.length / 2)),
          dict_list_to_object (fs.drop (fs.length / 2)) with
    | some f1, some f2 => some (FilterObj.and f1 f2)
    | _, _ => none
  else
    fs.head?.map FilterObj.leaf
termination_by fs.length
decreasing_by
  · simp only [List.length_take]
    omega
  · simp only [List.length_drop]
    omega

/-- A record of the old database as loaded by `PandasLoader` /
`PandasConverter`, restricted to the columns the deployer of
`bookshelf-migration.py` reads. -/
structure Entry where
  page_id : String
  cover : Option String
  nm : Option String
  ty : String
  authors : List String
  language : Option String
  genre : List String
  startAndEnd : List String
  rate : Option String
  currentOn : PyNum
  totalPages : PyNum
  numberInSeries : PyNum
  owned : Bool
deriving DecidableEq, Repr

/-- `PayloadDeployer.convert_type_names` (`bookshelf-migration.py`): the
static OLD → NEW category rename table; lookup via `dict.get`, which
yields `None` for a missing key. -/
def convert_type_names (t : String) : Option String :=
  if t = "Book" then some "Book"
  else if t = "Novella" then some "Novella"
  else if t = "Graphic Novel" then some "Graphic Novel"
  else if t = "Manga" then some "Manga"
  else if t = "Webcomic" then some "Webcomic"
  else if t = "Poetry" then some "Poem"
  else if t = "Short Story" then some "Short story"
  else if t = "Collection" then some "Collection"
  else none

/-- The required destination field list shared by the three categories
registered in `PayloadDeployer.properties_needed_by_type`. -/
def book_field_list : List String :=
  ["Title", "0 Type", "0 Cover", "1 Author(s)", "1 Language", "1 Genre(s)",
   "1 Dates read", "1 Rating", "BNG Current page", "BNG Total pages",
   "BNG Number in series", "BNGCA Owned"]

/-- `PayloadDeployer.properties_needed_by_type`: the category schema dict.
Only Book, Novella and Graphic Novel are registered (the source carries a
TODO for the remaining categories); a missing key means the Python dict
lookup raises `KeyError`. -/
def properties_needed_by_type (t : String) : Option (List String) :=
  if t = "Book" then some book_field_list
  else if t = "Novella" then some book_field_list
  else if t = "Graphic Novel" then some book_field_list
  else none

/-- `PayloadDeployer.create_file_property`. -/
def create_file_property : Option String → Option DestProp
  | none => none
  | some url => some (DestProp.file url)

/-- `PayloadDeployer.create_title_property`. -/
def create_title_property : Option String → Option DestProp
  | none => none
  | some t => some (DestProp.titleProp t)

/-- `PayloadDeployer.create_select_property`. -/
def create_select_property : Option String → Option DestProp
  | none => none
  | some v => some (DestProp.select v)

/-- `PayloadDeployer.create_multiselect_property`: an empty value list is
falsy, yielding `None`. -/
def create_multiselect_property (vals : List MsEntry) : Option DestProp :=
  if vals.isEmpty then none else some (DestProp.multiSelect vals)

/-- `PayloadDeployer.create_date_property`. -/
def create_date_property (start stop : Option String) : Option DestProp :=
  if start = none ∧ stop = none then none
  else some (DestProp.dateProp start stop)

/-- `PayloadDeployer.create_number_property`: `None` and NaN both yield
`None`; otherwise the numeric value passes through. -/
def create_number_property : PyNum → Option DestProp
  | PyNum.null => none
  | PyNum.nan => none
  | PyNum.num v => some (DestProp.number v)

/-- `PayloadDeployer.create_checkbox_property`: always returns a property
object (no null check in the source). -/
def create_checkbox_property (b : Bool) : Option DestProp :=
  some (DestProp.checkbox b)

/-- `PayloadDeployer.retrieve_property_value` (`bookshelf-migration.py`):
dispatch from destination field name to the property constructor applied
to the matching column of the entry. -/
def retrieve_property_value (prop : String) (e : Entry) : Option DestProp :=
  if prop = "0 Cover" then create_file_property e.cover
  else if prop = "Title" then create_title_property e.nm
  else if prop = "0 Type" then create_select_property (convert_type_names e.ty)
  else if prop = "1 Author(s)" then
    create_multiselect_property (e.authors.map MsEntry.raw)
  else if prop = "1 Language" then create_select_property e.language
  else if prop = "1 Genre(s)" then
    create_multiselect_property (e.genre.map MsEntry.named)
  else if prop = "1 Dates read" then
    create_date_property e.startAndEnd.head?
      (if e.startAndEnd.length = 2 then e.startAndEnd.get? 1 else none)
  else if prop = "1 Rating" then create_select_property e.rate
  else if prop = "BNG Current page" then create_number_property e.currentOn
  else if prop = "BNG Total pages" then create_number_property e.totalPages
  else if prop = "BNG Number in series" then
    create_number_property e.numberInSeries
  else if prop = "BNGCA Owned" then create_checkbox_property e.owned
  else none

/-- `PayloadDeployer.compile_properties` (`bookshelf-migration.py`): the
destination payload as an ordered key/property list.  The unchecked dict
lookup `properties_needed_by_type[entry["Type"]]` raises `KeyError` for an
unregistered category; a `None` conversion result is not inserted. -/
def compile_properties (e : Entry) : Except String (List (String × DestProp)) :=
  match properties_needed_by_type e.ty with
  | none => Except.error "KeyError"
  | some props =>
      Except.ok (("Needs Review", DestProp.checkbox true) ::
        props.filterMap fun p =>
          (retrieve_property_value p e).map fun v => (p, v))

/-- The patch body sent by `PayloadDeployer.update_transferred`:
`{"properties": {"Transferred to new db?": {"checkbox": true}}}`. -/
def update_transferred_payload : List (String × DestProp) :=
  [("Transferred to new db?", DestProp.checkbox true)]

/-- A request issued against the Notion pages API by the transfer loop. -/
inductive ApiCall
  | createPage (props : List (String × DestProp)) (icon : Option String)
  | updatePage (page_id : String) (patch : List (String × DestProp))
deriving DecidableEq, Repr

/-- `PayloadDeployer.update_transferred`: patch the source page with the
fixed single-checkbox payload. -/
def update_transferred (page_id : String) : ApiCall :=
  ApiCall.updatePage page_id update_transferred_payload

/-- Outcome of the destination create call, as seen by the loop: the
`ok` flag and the response body text. -/
structure HttpResp where
  ok : Bool
  text : String
deriving DecidableEq, Repr

/-- One iteration of `PayloadDeployer.transfer_entries`
(`bookshelf-migration.py`) on a single row, parameterised by the response
the create call returns.  Returns the Notion API calls issued (in order)
and the lines printed.  A `KeyError` from `compile_properties` propagates
before any call is made.  Note the source calls `update_transferred`
unconditionally, after the `if not response.ok` / `else` statement. -/
def transfer_step (resp : HttpResp) (e : Entry) :
    Except String (List ApiCall × List String) :=
  match compile_properties e with
  | Except.error msg => Except.error msg
  | Except.ok props =>
      Except.ok ([ApiCall.createPage props e.cover, update_transferred e.page_id],
        if resp.ok then ["Transfer successful!"] else [resp.text])

/-- A request body sent to the Notion database query endpoint by
`PandasLoader.load_db`: the optional filter object and the optional start
cursor (the sorts and page-size parameters are never passed by the
loader). -/
structure QueryReq where
  filter : Option FilterObj
  start_cursor : Option String
deriving DecidableEq, Repr

/-- A response of the query endpoint as consumed by the loader: the `ok`
flag, the converted records of this page (abstracted to opaque record
ids), the `has_more` flag and the `next_cursor`. -/
structure QueryResp where
  ok : Bool
  results : List Nat
  has_more : Bool
  next_cursor : Option String
deriving DecidableEq, Repr

/-- The `while db_response_obj.get("has_more")` loop of
`PandasLoader.load_db`.  Each continuation request passes only the start
cursor — `query_database(db_id, start_cursor=start_cursor)` — with no
filter object.  When a continuation response is not ok the loop variable
is left unchanged, so `has_more` of the stale object keeps the loop
spinning; fuel renders that divergence as `none`.  Returns the
accumulated records and the requests issued. -/
def load_db_loop (api : QueryReq → QueryResp) :
    Nat → QueryResp → List Nat → List QueryReq → Option (List Nat × List QueryReq)
  | 0, _, _, _ => none
  | fuel + 1, obj, records, reqs =>
    if obj.has_more then
      if (api (QueryReq.mk none obj.next_cursor)).ok then
        load_db_loop api fuel (api (QueryReq.mk none obj.next_cursor))
          (records ++ (api (QueryReq.mk none obj.next_cursor)).results)
          (reqs ++ [QueryReq.mk none obj.next_cursor])
      else
        load_db_loop api fuel obj records (reqs ++ [QueryReq.mk none obj.next_cursor])
    else
      some (records, reqs)

/-- `PandasLoader.load_db`: the first request carries the filter object
and no cursor; if it fails the loader returns an empty record set.  The
full record list is accumulated before anything else happens with it. -/
def load_db (api : QueryReq → QueryResp) (filter_object : Option FilterObj)
    (fuel : Nat) : Option (List Nat × List QueryReq) :=
  if (api (QueryReq.mk filter_object none)).ok then
    load_db_loop api fuel (api (QueryReq.mk filter_object none))
      (api (QueryReq.mk filter_object none)).results
      [QueryReq.mk filter_object none]
  else
    some ([], [QueryReq.mk filter_object none])

/-- Characterisation of a terminating run of the pagination loop starting
from response object `obj`: the loop issues exactly the continuation
requests `reqs` — each carrying no filter and the previous response's
next cursor — every continuation response is ok, the result lists
concatenate in order to `recs`, and the loop stops at the first response
whose `has_more` is false. -/
inductive Chain (api : QueryReq → QueryResp) :
    QueryResp → List QueryReq → List Nat → Prop
  | done (obj : QueryResp) (h : obj.has_more = false) : Chain api obj [] []
  | step (obj : QueryResp) (reqs : List QueryReq) (recs : List Nat)
      (hm : obj.has_more = true)
      (hok : (api (QueryReq.mk none obj.next_cursor)).ok = true)
      (hrest : Chain api (api (QueryReq.mk none obj.next_cursor)) reqs recs) :
      Chain api obj (QueryReq.mk none obj.next_cursor :: reqs)
        ((api (QueryReq.mk none obj.next_cursor)).results ++ recs)

/-- A two-page database: the cursorless request yields record 1 with
has_more and cursor c1; the request at cursor c1 yields record 2 and no
further pages. -/
def two_page_api : QueryReq → QueryResp := fun req =>
  match req.start_cursor with
  | none => QueryResp.mk true [1] true (some "c1")
  | some _ => QueryResp.mk true [2] false none

/-- Columns of an old-database record read by `PayloadDeployer` of
`old_bookshelf-migration.py` during cover enrichment. -/
structure OldEntry where
  cover : Option String
  nm : Option String
  author : List String
deriving DecidableEq, Repr

/-- A call made against an external book-metadata lookup provider. -/
inductive LookupCall
  | isbnSearch (title : Option String) (author : List String)
  | coverSearch (isbn : String)
deriving DecidableEq, Repr

/-- `PayloadDeployer.get_cover_url` (`old_bookshelf-migration.py`),
parameterised by the two lookup providers.  A present cover is returned
immediately with no provider call.  Otherwise the ISBN search runs; on a
hit the OpenLibrary client resolves the cover.  When the ISBN search
yields nothing, the final `return cover_url` reads a local variable that
was never assigned, so Python raises `UnboundLocalError`. -/
def get_cover_url (get_isbn : Option String → List String → Option String)
    (ol_get_cover_url : String → Option String) (e : OldEntry) :
    Except String (Option String × List LookupCall) :=
  match e.cover with
  | some u => Except.ok (some u, [])
  | none =>
      match get_isbn e.nm e.author with
      | some isbn =>
          Except.ok (ol_get_cover_url isbn,
            [LookupCall.isbnSearch e.nm e.author, LookupCall.coverSearch isbn])
      | none => Except.error "UnboundLocalError"

/-- One item of the title-property endpoint's `results` array; `.get` on
the missing key yields null, hence the optional plain text. -/
structure TitleItem where
  plain_text : Option String
deriving DecidableEq, Repr

/-- A response of the Notion page-property endpoint as consumed by
`PandasConverter.get_relation_title`. -/
structure PageResp where
  ok : Bool
  results : List TitleItem
deriving DecidableEq, Repr

/-- `PandasConverter.get_relation_title` (`bookshelf-migration.py`): a
non-ok response yields `None`; an ok response is indexed at
`results[0]`, which raises `IndexError` when the array is empty. -/
def get_relation_title (api : String → PageResp) (page_id : String) :
    Except String (Option String) :=
  let r := api page_id
  if r.ok then
    match r.results with
    | [] => Except.error "IndexError"
    | item :: _ => Except.ok item.plain_text
  else
    Except.ok none

/-- The title-accumulation loop of `PandasConverter.get_relation`: one
secondary lookup per related id, in order, aborting at the first raised
exception. -/
def relation_titles (api : String → PageResp) :
    List String → Except String (List (Option String))
  | [] => Except.ok []
  | i :: rest => do
      let t ← get_relation_title api i
      let ts ← relation_titles api rest
      pure (t :: ts)

/-- `PandasConverter.get_relation`: an empty (or missing) relation list is
falsy and yields `None`; otherwise the ordered title list is returned. -/
def get_relation (api : String → PageResp) (relation_value : List String) :
    Except String (Option (List (Option String))) :=
  if relation_value.isEmpty then Except.ok none
  else Except.map some (relation_titles api relation_value)

/-- The value `get_relation_title` produces for one id when no exception
occurs: the first result item's plain text on an ok response, null on a
failed lookup. -/
def resolved_title (api : String → PageResp) (i : String) : Option String :=
  if (api i).ok then
    match (api i).results with
    | [] => none
    | item :: _ => item.plain_text
  else
    none

/-- A secondary-lookup service with one resolvable page "a" and a failing
lookup for every other id. -/
def relation_api_example : String → PageResp := fun i =>
  if i = "a" then PageResp.mk true [TitleItem.mk (some "Title A")]
  else PageResp.mk false []

/-- A concrete Book row of the loaded dataframe (current page is NaN,
total pages and number-in-series are actual numbers). -/
def bookEntry : Entry :=
  { page_id := "p1", cover := some "http://covers.example/dune.jpg",
    nm := some "Dune", ty := "Book", authors := ["Herbert"],
    language := some "English", genre := ["Science Fiction"],
    startAndEnd := ["2022-01-01", "2022-02-01"], rate := some "5",
    currentOn := PyNum.nan, totalPages := PyNum.num 412,
    numberInSeries := PyNum.num 1, owned := true }

/-- The same row with a category that appears in neither the rename table
nor the category schema. -/
def essayEntry : Entry := { bookEntry with ty := "Essay" }

/-- The same row with a category that the rename table maps but for which
no schema is registered (the source's own TODO). -/
def mangaEntry : Entry := { bookEntry with ty := "Manga" }

/-- A record with no cover, for exercising the enrichment paths. -/
def noCoverEntry : OldEntry :=
  { cover := none, nm := some "Dune", author := ["Herbert"] }

/-! ## Helper lemmas about the payload compiler -/

/-- Categories with a registered schema are exactly Book, Novella and
Graphic Novel, all sharing the Book field list. -/
lemma schema_cases {t : String} {props : List String}
    (h : properties_needed_by_type t = some props) :
    (t = "Book" ∨ t = "Novella" ∨ t = "Graphic Novel") ∧ props = book_field_list := by
  unfold properties_needed_by_type at h
  split_ifs at h <;> simp_all

/-- Unfolding of `compile_properties` for a registered category. -/
lemma compile_properties_eq {e : Entry} {props : List String}
    (h : properties_needed_by_type e.ty = some props) :
    compile_properties e = Except.ok (("Needs Review", DestProp.checkbox true) ::
      props.filterMap fun p => (retrieve_property_value p e).map fun v => (p, v)) := by
  unfold compile_properties
  rw [h]

/-- A field whose conversion yields null contributes no key to the
compiled property list. -/
lemma key_not_mem_payload {e : Entry} {props : List String} {k : String}
    (hk : retrieve_property_value k e = none) :
    k ∉ (props.filterMap fun p =>
        (retrieve_property_value p e).map fun v => (p, v)).map Prod.fst := by
  intro hmem
  rcases List.mem_map.mp hmem with ⟨⟨p, v⟩, hpv, hfst⟩
  rcases List.mem_filterMap.mp hpv with ⟨a, _, hav⟩
  cases hra : retrieve_property_value a e with
  | none => rw [hra] at hav; simp at hav
  | some w =>
      rw [hra] at hav
      simp only [Option.map_some', Option.some.injEq, Prod.mk.injEq] at hav
      obtain ⟨rfl, rfl⟩ := hav
      have hak : a = k := hfst
      subst hak
      rw [hk] at hra
      exact Option.noConfusion hra

/-- A field whose conversion yields a property appears in the compiled
property list under its own key with that value. -/
lemma mem_payload_of_retrieve {e : Entry} {props : List String} {p : String}
    {v : DestProp} (hp : p ∈ props) (hv : retrieve_property_value p e = some v) :
    (p, v) ∈ (("Needs Review", DestProp.checkbox true) ::
      props.filterMap fun q => (retrieve_property_value q e).map fun w => (q, w)) :=
  List.mem_cons_of_mem _ (List.mem_filterMap.mpr ⟨p, hp, by rw [hv]; rfl⟩)

/-- The field dispatch at key "0 Type" is the rename-table lookup fed to
the select constructor. -/
lemma retrieve_type (e : Entry) :
    retrieve_property_value "0 Type" e =
      create_select_property (convert_type_names e.ty) := rfl

/-- The field dispatch at key "BNG Current page". -/
lemma retrieve_current_page (e : Entry) :
    retrieve_property_value "BNG Current page" e =
      create_number_property e.currentOn := rfl

/-- The field dispatch at key "BNG Total pages". -/
lemma retrieve_total_pages (e : Entry) :
    retrieve_property_value "BNG Total pages" e =
      create_number_property e.totalPages := rfl

/-- The field dispatch at key "BNG Number in series". -/
lemma retrieve_number_in_series (e : Entry) :
    retrieve_property_value "BNG Number in series" e =
      create_number_property e.numberInSeries := rfl

/-- The select constructor is the option-map of the select variant. -/
lemma create_select_property_eq (o : Option String) :
    create_select_property o = o.map DestProp.select := by
  cases o <;> rfl

/-! ## Claim theorems -/

/-- Claim C10: the mark-transferred patch touches exactly one property —
the "Transferred to new db?" checkbox set to true — for every page id,
independent of the record's content (the patch builder reads nothing but
the page id). -/
theorem update_transferred_single_key :
    ∀ page_id : String,
      update_transferred page_id = ApiCall.updatePage page_id
          [("Transferred to new db?", DestProp.checkbox true)] ∧
        update_transferred_payload.length = 1 :=
  fun _ => ⟨rfl, rfl⟩

/-- Claim C1 (evaluation of the defect): on a concrete Book record whose
destination create call returns a non-success response, the transfer
step logs the failure response body but still issues the
mark-transferred update for the record — the update call sits after the
if/else on `response.ok`, unconditionally — so the record does not stay
a selection candidate for a retried run. -/
theorem create_failure_still_marks_transferred :
    ∃ props, transfer_step (HttpResp.mk false "validation error body") bookEntry =
      Except.ok ([ApiCall.createPage props bookEntry.cover, update_transferred "p1"],
        ["validation error body"]) :=
  ⟨_, rfl⟩

/-- Claim C8: for every record whose category has no registered schema
and any create response, compiling the destination payload fails with
the `KeyError` that plays the role of `UnknownCategoryError` (no default
field set is guessed), and the transfer step for that record aborts with
the same error before issuing any create or update call. -/
theorem unknown_category_fails_before_mutation (e : Entry) (resp : HttpResp)
    (h : properties_needed_by_type e.ty = none) :
    compile_properties e = Except.error "KeyError" ∧
    transfer_step resp e = Except.error "KeyError" := by
  have hc : compile_properties e = Except.error "KeyError" := by
    unfold compile_properties
    rw [h]
  refine ⟨hc, ?_⟩
  unfold transfer_step
  rw [hc]

/-- Witness for C8 at the Manga row (a category the source's own TODO
admits is missing from the schema table). -/
theorem unknown_category_fails_before_mutation_witness :
    properties_needed_by_type mangaEntry.ty = none ∧
    (compile_properties mangaEntry = Except.error "KeyError" ∧
      transfer_step (HttpResp.mk true "ok") mangaEntry = Except.error "KeyError") :=
  ⟨rfl, unknown_category_fails_before_mutation mangaEntry (HttpResp.mk true "ok") rfl⟩

/-- A null-converting field key is absent from the full compiled payload
(whose head is the fixed "Needs Review" entry). -/
lemma key_not_mem_full_payload {e : Entry} {props : List String} {k : String}
    (hk : retrieve_property_value k e = none) (hne : k ≠ "Needs Review") :
    k ∉ ((("Needs Review", DestProp.checkbox true) ::
      props.filterMap fun p =>
        (retrieve_property_value p e).map fun v => (p, v)).map Prod.fst) := by
  simp only [List.map_cons, List.mem_cons]
  rintro (h1 | h2)
  · exact hne h1
  · exact key_not_mem_payload hk h2

/-- Claim C5 (amended): the destination Category select property is the
old category name mapped through the static rename table; a category
name not present in the rename table yields a null select property — so
its key is omitted rather than passing through under the original name —
and for every record with a registered schema the mapped name is what
appears in the payload. -/
theorem category_rename_no_passthrough (e : Entry) :
    retrieve_property_value "0 Type" e =
      (convert_type_names e.ty).map DestProp.select ∧
    ∀ props, properties_needed_by_type e.ty = some props →
      ∃ out, compile_properties e = Except.ok out ∧
        ("0 Type", DestProp.select e.ty) ∈ out ∧
        convert_type_names e.ty = some e.ty := by
  refine ⟨by rw [retrieve_type, create_select_property_eq], ?_⟩
  intro props h
  obtain ⟨hcases, hprops⟩ := schema_cases h
  have hconv : convert_type_names e.ty = some e.ty := by
    rcases hcases with h1 | h1 | h1 <;> rw [h1] <;> rfl
  have hv : retrieve_property_value "0 Type" e = some (DestProp.select e.ty) := by
    rw [retrieve_type, hconv]
    rfl
  subst hprops
  exact ⟨_, compile_properties_eq h,
    mem_payload_of_retrieve (by simp [book_field_list]) hv, hconv⟩

/-- Witness for the amended C5 at the concrete Book row. -/
theorem category_rename_no_passthrough_witness :
    properties_needed_by_type bookEntry.ty = some book_field_list ∧
    ∃ out, compile_properties bookEntry = Except.ok out ∧
      ("0 Type", DestProp.select bookEntry.ty) ∈ out ∧
      convert_type_names bookEntry.ty = some bookEntry.ty :=
  ⟨rfl, (category_rename_no_passthrough bookEntry).2 book_field_list rfl⟩

/-- Counterexample to C5 as stated: for the record with the unmapped
category "Essay" the rename lookup yields null, the select conversion
yields no property, and no destination payload exists at all — the
original name never appears in a destination payload. -/
theorem unmapped_category_passthrough_cex :
    convert_type_names essayEntry.ty = none ∧
    retrieve_property_value "0 Type" essayEntry = none ∧
    compile_properties essayEntry = Except.error "KeyError" :=
  ⟨rfl, rfl, rfl⟩

/-- A field whose dispatch is the number constructor: null or NaN input
leaves its key out of the payload, a numeric input lands in it. -/
lemma numeric_field_spec {e : Entry} {k : String} {acc : PyNum}
    (hr : retrieve_property_value k e = create_number_property acc)
    (hk : k ∈ book_field_list) (hne : k ≠ "Needs Review") :
    ((acc = PyNum.null ∨ acc = PyNum.nan) →
      k ∉ ((("Needs Review", DestProp.checkbox true) ::
        book_field_list.filterMap fun p =>
          (retrieve_property_value p e).map fun v => (p, v)).map Prod.fst)) ∧
    ∀ v : Int, acc = PyNum.num v →
      (k, DestProp.number v) ∈ (("Needs Review", DestProp.checkbox true) ::
        book_field_list.filterMap fun p =>
          (retrieve_property_value p e).map fun v => (p, v)) := by
  constructor
  · intro hnull
    refine key_not_mem_full_payload ?_ hne
    rw [hr]
    rcases hnull with h' | h' <;> rw [h'] <;> rfl
  · intro v hv
    refine mem_payload_of_retrieve hk ?_
    rw [hr, hv]
    rfl

/-- Claim C7: for every record with a registered schema, each numeric
destination field (current page, total pages, number in series) whose
input is null or NaN has its key entirely absent from the compiled
payload, and a numeric input passes through unchanged as an actual
number (the number variant carries an integer, so NaN is never
emitted). -/
theorem numeric_null_or_nan_key_absent (e : Entry) (props : List String)
    (h : properties_needed_by_type e.ty = some props) :
    ∃ out, compile_properties e = Except.ok out ∧
      ∀ pv ∈ [("BNG Current page", e.currentOn),
              ("BNG Total pages", e.totalPages),
              ("BNG Number in series", e.numberInSeries)],
        ((pv.2 = PyNum.null ∨ pv.2 = PyNum.nan) → pv.1 ∉ out.map Prod.fst) ∧
        ∀ v : Int, pv.2 = PyNum.num v → (pv.1, DestProp.number v) ∈ out := by
  obtain ⟨_, rfl⟩ := schema_cases h
  refine ⟨_, compile_properties_eq h, ?_⟩
  intro pv hpv
  simp only [List.mem_cons, List.not_mem_nil, or_false] at hpv
  rcases hpv with rfl | rfl | rfl
  · exact numeric_field_spec (retrieve_current_page e)
      (by simp [book_field_list])
      (show ("BNG Current page" : String) ≠ "Needs Review" by decide)
  · exact numeric_field_spec (retrieve_total_pages e)
      (by simp [book_field_list])
      (show ("BNG Total pages" : String) ≠ "Needs Review" by decide)
  · exact numeric_field_spec (retrieve_number_in_series e)
      (by simp [book_field_list])
      (show ("BNG Number in series" : String) ≠ "Needs Review" by decide)

/-- Witness for C7 at the concrete Book row: the NaN current page key is
absent, the numeric total pages passes through. -/
theorem numeric_null_or_nan_key_absent_witness :
    ∃ out, compile_properties bookEntry = Except.ok out ∧
      "BNG Current page" ∉ out.map Prod.fst ∧
      ("BNG Total pages", DestProp.number 412) ∈ out := by
  obtain ⟨out, hout, hall⟩ :=
    numeric_null_or_nan_key_absent bookEntry book_field_list rfl
  exact ⟨out, hout,
    (hall ("BNG Current page", bookEntry.currentOn) (by simp)).1 (Or.inr rfl),
    (hall ("BNG Total pages", bookEntry.totalPages) (by simp)).2 412 rfl⟩

/-- Arithmetic fact feeding the non-degeneracy bound: for n ≥ 4,
n ≤ 2 ^ (n − 2). -/
lemma le_two_pow_sub_two {n : Nat} (h : 4 ≤ n) : n ≤ 2 ^ (n - 2) := by
  induction n, h using Nat.le_induction with
  | base => norm_num
  | succ n hn ih =>
      have h1 : 1 ≤ 2 ^ (n - 2) := Nat.one_le_two_pow
      have h2 : n + 1 - 2 = (n - 2) + 1 := by omega
      rw [h2, pow_succ]
      omega

/-- The midpoint-splitting recursion produces, for every nonempty leaf
list of length n, a tree of depth exactly ⌈log2 n⌉. -/
lemma dict_list_to_object_depth :
    ∀ n (fs : List Nat), fs.length = n → fs ≠ [] →
      ∃ t, dict_list_to_object fs = some t ∧ t.depth = Nat.clog 2 n := by
  intro n
  induction n using Nat.strong_induction_on with
  | _ n ih =>
      intro fs hlen hne
      by_cases h1 : 1 < fs.length
      · have h2 : 2 ≤ n := by omega
        have htake_len : (fs.take (fs.length / 2)).length = n / 2 := by
          simp [List.length_take, hlen]
          omega
        have hdrop_len : (fs.drop (fs.length / 2)).length = n - n / 2 := by
          simp [List.length_drop, hlen]
        obtain ⟨t1, ht1, hd1⟩ := ih (n / 2) (by omega) (fs.take (fs.length / 2))
          htake_len (by
            refine List.ne_nil_of_length_pos ?_
            rw [htake_len]
            omega)
        obtain ⟨t2, ht2, hd2⟩ := ih (n - n / 2) (by omega) (fs.drop (fs.length / 2))
          hdrop_len (by
            refine List.ne_nil_of_length_pos ?_
            rw [hdrop_len]
            omega)
        have key : dict_list_to_object fs = some (FilterObj.and t1 t2) := by
          unfold dict_list_to_object
          rw [dif_pos h1, ht1, ht2]
        refine ⟨FilterObj.and t1 t2, key, ?_⟩
        have hsub : n - n / 2 = (n + 1) / 2 := by omega
        have hmono : Nat.clog 2 (n / 2) ≤ Nat.clog 2 ((n + 1) / 2) :=
          Nat.clog_mono_right 2 (by omega)
        have hrec : Nat.clog 2 n = Nat.clog 2 ((n + 1) / 2) + 1 := by
          have := Nat.clog_of_two_le (b := 2) (n := n) (by norm_num) h2
          rwa [show n + 2 - 1 = n + 1 from by omega] at this
        rw [FilterObj.depth, hd1, hd2, hsub, Nat.max_eq_right hmono, hrec]
      · have hlen1 : fs.length = 1 := by
          have := List.length_pos.mpr hne
          omega
        obtain ⟨a, rfl⟩ := List.length_eq_one.mp hlen1
        have hn1 : n = 1 := by simpa using hlen.symm
        subst hn1
        refine ⟨FilterObj.leaf a, ?_, ?_⟩
        · unfold dict_list_to_object
          rfl
        · rw [FilterObj.depth, Nat.clog_one_right]

/-- Claim C4: for every nonempty list of leaf predicates the filter
builder succeeds; the resulting tree depth is ⌈log2 N⌉; for N ≥ 4 the
depth is strictly below N − 1, so the degenerate chain is never built;
and a single leaf is returned directly without an AND wrapper. -/
theorem filter_tree_balanced (fs : List Nat) (h : fs ≠ []) :
    ∃ t, dict_list_to_object fs = some t ∧
      FilterObj.depth t = Nat.clog 2 fs.length ∧
      (4 ≤ fs.length → FilterObj.depth t < fs.length - 1) ∧
      ∀ p, fs = [p] → t = FilterObj.leaf p := by
  obtain ⟨t, ht, hd⟩ := dict_list_to_object_depth fs.length fs rfl h
  refine ⟨t, ht, hd, ?_, ?_⟩
  · intro h4
    have hle : Nat.clog 2 fs.length ≤ fs.length - 2 :=
      (Nat.le_pow_iff_clog_le (by norm_num)).mp (le_two_pow_sub_two h4)
    omega
  · rintro p rfl
    have hp : dict_list_to_object [p] = some (FilterObj.leaf p) := by
      unfold dict_list_to_object
      rfl
    rw [hp] at ht
    exact (Option.some_inj.mp ht).symm

/-- Witness for C4 on the five-leaf list: the builder returns a tree of
depth ⌈log2 5⌉. -/
theorem filter_tree_balanced_witness :
    ([1, 2, 3, 4, 5] : List Nat) ≠ [] ∧
    ∃ t, dict_list_to_object [1, 2, 3, 4, 5] = some t ∧
      FilterObj.depth t = Nat.clog 2 (List.length [1, 2, 3, 4, 5]) := by
  refine ⟨by decide, ?_⟩
  obtain ⟨t, h1, h2, _, _⟩ := filter_tree_balanced [1, 2, 3, 4, 5] (by decide)
  exact ⟨t, h1, h2⟩

/-- Every continuation request described by a chain carries no filter. -/
lemma chain_filters_none {api : QueryReq → QueryResp} {obj : QueryResp}
    {reqs : List QueryReq} {recs : List Nat}
    (hc : Chain api obj reqs recs) : ∀ r ∈ reqs, r.filter = none := by
  induction hc with
  | done obj h =>
      intro r hr
      exact absurd hr (List.not_mem_nil r)
  | step obj reqs recs hm hok hrest ih =>
      intro r hr
      rcases List.mem_cons.mp hr with rfl | hr'
      · rfl
      · exact ih r hr'

/-- If the pagination loop terminates, the requests and records it
appends beyond its accumulators form a `Chain` from the current response
object — in particular every continuation response along the way was ok
(a failed continuation leaves the loop spinning forever). -/
lemma load_db_loop_spec (api : QueryReq → QueryResp) :
    ∀ fuel obj records reqs R Q,
      load_db_loop api fuel obj records reqs = some (R, Q) →
      ∃ suffix srecs, Q = reqs ++ suffix ∧ R = records ++ srecs ∧
        Chain api obj suffix srecs := by
  intro fuel
  induction fuel with
  | zero =>
      intro obj records reqs R Q h
      exact absurd h (by simp [load_db_loop])
  | succ fuel ih =>
      intro obj records reqs R Q h
      rw [load_db_loop] at h
      by_cases hm : obj.has_more = true
      · rw [if_pos hm] at h
        by_cases hok : (api (QueryReq.mk none obj.next_cursor)).ok = true
        · rw [if_pos hok] at h
          obtain ⟨suffix, srecs, hQ, hR, hchain⟩ := ih _ _ _ _ _ h
          refine ⟨QueryReq.mk none obj.next_cursor :: suffix,
            (api (QueryReq.mk none obj.next_cursor)).results ++ srecs,
            ?_, ?_, Chain.step obj suffix srecs hm hok hchain⟩
          · rw [hQ, List.append_assoc]
            rfl
          · rw [hR, List.append_assoc]
        · rw [if_neg hok] at h
          obtain ⟨suffix, srecs, _, _, hchain⟩ := ih _ _ _ _ _ h
          cases hchain with
          | done _ hfalse => exact absurd hm (by rw [hfalse]; simp)
          | step _ _ _ _ hok' _ => exact absurd hok' hok
      · rw [if_neg hm] at h
        obtain ⟨rfl, rfl⟩ : records = R ∧ reqs = Q := by
          have := Option.some_inj.mp h
          exact ⟨congrArg Prod.fst this, congrArg Prod.snd this⟩
        exact ⟨[], [], by simp, by simp,
          Chain.done obj (Bool.not_eq_true _ ▸ hm)⟩

/-- Claim C2 (amended): in a terminating run of `load_db`, the first page
request carries the filter object and no cursor; every later page is
requested via the previous response's next cursor with NO filter object
(the continuation call passes only `start_cursor`); pagination continues
until the first response with has_more false; and the records of all
pages are accumulated, in order, into the returned set before any
processing. -/
theorem load_db_filter_only_on_first_request
    (api : QueryReq → QueryResp) (filt : Option FilterObj) (fuel : Nat)
    (R : List Nat) (Q : List QueryReq)
    (hok : (api (QueryReq.mk filt none)).ok = true)
    (h : load_db api filt fuel = some (R, Q)) :
    ∃ suffix srecs,
      Q = QueryReq.mk filt none :: suffix ∧
      R = (api (QueryReq.mk filt none)).results ++ srecs ∧
      Chain api (api (QueryReq.mk filt none)) suffix srecs ∧
      ∀ r ∈ suffix, r.filter = none := by
  unfold load_db at h
  rw [if_pos hok] at h
  obtain ⟨suffix, srecs, hQ, hR, hchain⟩ := load_db_loop_spec api fuel _ _ _ R Q h
  exact ⟨suffix, srecs, by simpa using hQ, hR, hchain, chain_filters_none hchain⟩

/-- Witness for the amended C2 on the concrete two-page database. -/
theorem load_db_filter_only_on_first_request_witness :
    (two_page_api (QueryReq.mk (some (FilterObj.leaf 0)) none)).ok = true ∧
    ∃ suffix srecs,
      [QueryReq.mk (some (FilterObj.leaf 0)) none,
        QueryReq.mk none (some "c1")] =
        QueryReq.mk (some (FilterObj.leaf 0)) none :: suffix ∧
      ([1, 2] : List Nat) =
        (two_page_api (QueryReq.mk (some (FilterObj.leaf 0)) none)).results ++ srecs ∧
      Chain two_page_api
        (two_page_api (QueryReq.mk (some (FilterObj.leaf 0)) none)) suffix srecs ∧
      ∀ r ∈ suffix, r.filter = none :=
  ⟨rfl, load_db_filter_only_on_first_request two_page_api
    (some (FilterObj.leaf 0)) 5 [1, 2]
    [QueryReq.mk (some (FilterObj.leaf 0)) none, QueryReq.mk none (some "c1")]
    rfl rfl⟩

/-- Counterexample to C2 as stated: on the two-page database queried with
the filter, the second page request — issued via the next cursor —
carries no filter object at all, not the same filter as the first
request. -/
theorem load_db_second_request_drops_filter_cex :
    load_db two_page_api (some (FilterObj.leaf 0)) 5 =
      some ([1, 2], [QueryReq.mk (some (FilterObj.leaf 0)) none,
        QueryReq.mk none (some "c1")]) ∧
    (QueryReq.mk (none : Option FilterObj) (some "c1")).filter ≠
      some (FilterObj.leaf 0) :=
  ⟨rfl, by simp⟩

/-- Claim C6: a record whose cover field is already non-null is returned
unchanged by cover enrichment — the present URL is the result and no
lookup provider is consulted — whatever the two providers would
return. -/
theorem present_cover_returned_unchanged
    (get_isbn : Option String → List String → Option String)
    (ol_get_cover_url : String → Option String) (e : OldEntry) (u : String)
    (h : e.cover = some u) :
    get_cover_url get_isbn ol_get_cover_url e = Except.ok (some u, []) := by
  unfold get_cover_url
  rw [h]

/-- Witness for C6: a record with a present cover, fed to providers that
would both return other values, keeps its cover and triggers no call. -/
theorem present_cover_returned_unchanged_witness :
    (OldEntry.mk (some "http://covers.example/have.jpg") (some "Dune")
      ["Herbert"]).cover = some "http://covers.example/have.jpg" ∧
    get_cover_url (fun _ _ => some "9780441013593")
      (fun _ => some "http://covers.example/other.jpg")
      (OldEntry.mk (some "http://covers.example/have.jpg") (some "Dune")
        ["Herbert"]) =
      Except.ok (some "http://covers.example/have.jpg", []) :=
  ⟨rfl, present_cover_returned_unchanged _ _ _ "http://covers.example/have.jpg" rfl⟩

/-- Claim C3 (evaluation of the defect): on a concrete record with a null
cover, when the title+author ISBN search yields no ISBN the enrichment
does not return normally with a null cover — the final return reads the
never-assigned local `cover_url`, raising `UnboundLocalError`.  When an
ISBN is found but the cover lookup yields no URL, a null cover is
returned normally, as the claim says. -/
theorem no_isbn_raises_unbound_local :
    get_cover_url (fun _ _ => none) (fun _ => some "http://covers.example/x.jpg")
      noCoverEntry = Except.error "UnboundLocalError" ∧
    get_cover_url (fun _ _ => some "9780441013593") (fun _ => none) noCoverEntry =
      Except.ok (none, [LookupCall.isbnSearch (some "Dune") ["Herbert"],
        LookupCall.coverSearch "9780441013593"]) :=
  ⟨rfl, rfl⟩

/-- On ids whose ok responses are nonempty, the title loop resolves every
id in order to its `resolved_title`. -/
lemma relation_titles_spec (api : String → PageResp) :
    ∀ ids : List String,
      (∀ i ∈ ids, (api i).ok = true → (api i).results ≠ []) →
      relation_titles api ids = Except.ok (ids.map (resolved_title api)) := by
  intro ids
  induction ids with
  | nil => intro _; rfl
  | cons i rest ih =>
      intro hwf
      have hi := hwf i (List.mem_cons_self i rest)
      have hrest := ih fun j hj => hwf j (List.mem_cons_of_mem i hj)
      have ht : get_relation_title api i = Except.ok (resolved_title api i) := by
        unfold get_relation_title resolved_title
        by_cases hok : (api i).ok = true
        · rw [if_pos hok, if_pos hok]
          cases hres : (api i).results with
          | nil => exact absurd hres (hi hok)
          | cons a t => rfl
        · rw [if_neg hok, if_neg hok]
      rw [relation_titles, ht, hrest]
      rfl

/-- Claim C9: relation normalization yields null for an empty relation
list and otherwise the ordered list of resolved titles, one entry per
related id; an id whose secondary lookup fails contributes a null entry
at its position instead of aborting the record.  (The hypothesis
excludes the ok-response-with-empty-results shape the endpoint never
produces, on which the code's `results[0]` would raise IndexError.) -/
theorem relation_resolution (api : String → PageResp) (ids : List String)
    (hwf : ∀ i ∈ ids, (api i).ok = true → (api i).results ≠ []) :
    get_relation api ids =
      Except.ok (if ids = [] then none
        else some (ids.map (resolved_title api))) ∧
    ∀ i : String, (api i).ok = false → resolved_title api i = none := by
  constructor
  · unfold get_relation
    by_cases hids : ids = []
    · subst hids
      rfl
    · rw [if_neg (by simpa using hids), relation_titles_spec api ids hwf,
        if_neg hids]
      rfl
  · intro i hfail
    unfold resolved_title
    rw [if_neg (by rw [hfail]; simp)]

/-- Witness for C9: two related ids, the second of which fails its
lookup, resolve to a two-element list with one real title and one null
entry. -/
theorem relation_resolution_witness :
    (∀ i ∈ ["a", "b"], (relation_api_example i).ok = true →
      (relation_api_example i).results ≠ []) ∧
    get_relation relation_api_example ["a", "b"] =
      Except.ok (some [some "Title A", none]) ∧
    resolved_title relation_api_example "b" = none := by
  have hwf : ∀ i ∈ ["a", "b"], (relation_api_example i).ok = true →
      (relation_api_example i).results ≠ [] := by decide
  refine ⟨hwf, ?_, (relation_resolution relation_api_example ["a", "b"] hwf).2 "b" rfl⟩
  rw [(relation_resolution relation_api_example ["a", "b"] hwf).1]
  exact congrArg Except.ok (by decide)

end Bookshelf
